import Mathlib

/-!
Verification development for the QuantPilot workflow execution engine
(`backend/agents/stock_agent.py` and `backend/app/main.py`).

The Python source is shallowly embedded: the node functions of the
LangGraph state machine (`analyst_node`, `reviewer_node`, `tool_node`),
the router (`route_next`), the graph wiring, the visibility filter
(`filter_messages`) and the final-response selection of `analyze_stock`
become executable Lean functions.  Model calls and tool callables are
external collaborators and enter as function parameters returning
`Except`, mirroring Python exceptions.  `json.loads` is embedded as a
recursive-descent decoder `jsonLoads`.
-/

namespace QuantPilot

/-! ### Character constants used throughout the embedding -/

def lbrace : Char := Char.ofNat 123

def rbrace : Char := Char.ofNat 125

def quoteChar : Char := Char.ofNat 34

def backslashChar : Char := Char.ofNat 92

def apos : String := (String.mk [Char.ofNat 39])

/-! ### Python string primitives

`pyFind`/`pyRFind` model `str.find`/`str.rfind` (index of first/last
occurrence, `-1` when absent); `pySlice` models `s[a:b]` with Python
clamping of negative indices; `pyIn` models the `in` substring test;
`pyStrip` models `str.strip()`; `pyUpper` models `str.upper()`. -/

def findFrom (c : Char) : List Char → Int → Int
  | [], _ => -1
  | x :: xs, i => if x = c then i else findFrom c xs (i + 1)

def pyFind (s : String) (c : Char) : Int := findFrom c s.toList 0

def rfindFrom (c : Char) : List Char → Int → Int → Int
  | [], _, best => best
  | x :: xs, i, best => rfindFrom c xs (i + 1) (if x = c then i else best)

def pyRFind (s : String) (c : Char) : Int := rfindFrom c s.toList 0 (-1)

def clampIdx (n : Nat) (i : Int) : Nat :=
  if i < 0 then ((n : Int) + i).toNat else min n i.toNat

def pySlice (s : String) (a b : Int) : String :=
  let l := s.toList
  let n := l.length
  ((l.take (clampIdx n b)).drop (clampIdx n a)).asString

def isSub (n : List Char) : List Char → Bool
  | [] => n.isEmpty
  | c :: t => n.isPrefixOf (c :: t) || isSub n t

def pyIn (needle haystack : String) : Bool := isSub needle.toList haystack.toList

def isPyWs (c : Char) : Bool :=
  c = Char.ofNat 32 || c = Char.ofNat 9 || c = Char.ofNat 10 || c = Char.ofNat 13 ||
    c = Char.ofNat 11 || c = Char.ofNat 12

def pyStrip (s : String) : String :=
  (((s.toList.dropWhile isPyWs).reverse.dropWhile isPyWs).reverse).asString

def pyUpper (s : String) : String := (s.toList.map Char.toUpper).asString

def pyStartsWith (s p : String) : Bool := p.toList.isPrefixOf s.toList

def pyEndsWith (s p : String) : Bool := p.toList.reverse.isPrefixOf s.toList.reverse

/-! ### JSON values and the decoder embedding `json.loads` -/

inductive Json where
  | null : Json
  | bool (b : Bool) : Json
  | num (lexeme : String) : Json
  | str (s : String) : Json
  | arr (elems : List Json) : Json
  | obj (fields : List (String × Json)) : Json

/-- Python dicts keep the last value bound to a duplicated key, so field
lookup takes the last matching entry. -/
def lookupLast (k : String) : List (String × Json) → Option Json
  | [] => none
  | (k2, v) :: t =>
    match lookupLast k t with
    | some r => some r
    | none => if k2 = k then some v else none

/-- Models `parsed[key]` on a decoded value: a field of an object, `none`
when the key is missing or the value is not an object (Python raises
`KeyError` and `TypeError` respectively; both land in the same `except`). -/
def jGet (j : Json) (k : String) : Option Json :=
  match j with
  | .obj fields => lookupLast k fields
  | _ => none

def isJsonWs (c : Char) : Bool :=
  c = Char.ofNat 32 || c = Char.ofNat 9 || c = Char.ofNat 10 || c = Char.ofNat 13

def skipWs : List Char → List Char
  | [] => []
  | c :: t => if isJsonWs c then skipWs t else c :: t

def hexVal (c : Char) : Option Nat :=
  if c.isDigit then some (c.toNat - 48)
  else if 97 ≤ c.toNat ∧ c.toNat ≤ 102 then some (c.toNat - 87)
  else if 65 ≤ c.toNat ∧ c.toNat ≤ 70 then some (c.toNat - 55)
  else none

def escMap (c : Char) : Option Char :=
  if c = quoteChar then some quoteChar
  else if c = backslashChar then some backslashChar
  else if c = Char.ofNat 47 then some (Char.ofNat 47)
  else if c = Char.ofNat 110 then some (Char.ofNat 10)
  else if c = Char.ofNat 116 then some (Char.ofNat 9)
  else if c = Char.ofNat 114 then some (Char.ofNat 13)
  else if c = Char.ofNat 98 then some (Char.ofNat 8)
  else if c = Char.ofNat 102 then some (Char.ofNat 12)
  else none

/-- String-literal body after the opening quote; `acc` is reversed. -/
def parseStrGo (acc : List Char) : List Char → Option (String × List Char)
  | [] => none
  | c :: t =>
    if c = quoteChar then some (acc.reverse.asString, t)
    else if c = backslashChar then
      match t with
      | [] => none
      | e :: t2 =>
        if e = Char.ofNat 117 then
          match t2 with
          | h1 :: h2 :: h3 :: h4 :: t3 =>
            match hexVal h1, hexVal h2, hexVal h3, hexVal h4 with
            | some a, some b, some c3, some d =>
              parseStrGo (Char.ofNat (((a * 16 + b) * 16 + c3) * 16 + d) :: acc) t3
            | _, _, _, _ => none
          | _ => none
        else
          match escMap e with
          | some ch => parseStrGo (ch :: acc) t2
          | none => none
    else if c.toNat < 32 then none
    else parseStrGo (c :: acc) t

/-- Number literal: sign, integer part without leading zeros, optional
fraction and exponent; the lexeme is kept verbatim. -/
def parseNum (l : List Char) : Option (Json × List Char) :=
  let (sign, l1) :=
    match l with
    | c :: t => if c = Char.ofNat 45 then ([c], t) else (([] : List Char), l)
    | [] => (([] : List Char), l)
  let ds := l1.takeWhile Char.isDigit
  if ds.isEmpty then none
  else if ds.length > 1 ∧ ds.headI = Char.ofNat 48 then none
  else
    let r1 := l1.drop ds.length
    let (fracPart, r2) :=
      match r1 with
      | c :: t =>
        if c = Char.ofNat 46 then
          let fs := t.takeWhile Char.isDigit
          if fs.isEmpty then (none, r1) else (some (c :: fs), t.drop fs.length)
        else (none, r1)
      | [] => (none, r1)
    match fracPart, r1 with
    | none, c :: _ =>
      if c = Char.ofNat 46 then none
      else
        match parseExpPart r2 with
        | none => none
        | some (es, r3) => some (.num (sign ++ ds ++ es).asString, r3)
    | _, _ =>
      match parseExpPart r2 with
      | none => none
      | some (es, r3) =>
        some (.num (sign ++ ds ++ (fracPart.getD []) ++ es).asString, r3)
where
  parseExpPart (r : List Char) : Option (List Char × List Char) :=
    match r with
    | c :: t =>
      if c = Char.ofNat 101 ∨ c = Char.ofNat 69 then
        let (sgn, t1) :=
          match t with
          | c2 :: t2 =>
            if c2 = Char.ofNat 43 ∨ c2 = Char.ofNat 45 then ([c2], t2)
            else (([] : List Char), t)
          | [] => (([] : List Char), t)
        let es := t1.takeWhile Char.isDigit
        if es.isEmpty then none else some (c :: sgn ++ es, t1.drop es.length)
      else some ([], r)
    | [] => some ([], r)

mutual

def parseVal : Nat → List Char → Option (Json × List Char)
  | 0, _ => none
  | f + 1, input =>
    let l := skipWs input
    if ("true".toList).isPrefixOf l then some (.bool true, l.drop 4)
    else if ("false".toList).isPrefixOf l then some (.bool false, l.drop 5)
    else if ("null".toList).isPrefixOf l then some (.null, l.drop 4)
    else
      match l with
      | [] => none
      | c :: t =>
        if c = quoteChar then
          match parseStrGo [] t with
          | some (s, r) => some (.str s, r)
          | none => none
        else if c = lbrace then parseObjBody f t
        else if c = Char.ofNat 91 then parseArrBody f t
        else if c = Char.ofNat 45 ∨ c.isDigit then parseNum l
        else none

def parseObjBody : Nat → List Char → Option (Json × List Char)
  | 0, _ => none
  | f + 1, input =>
    let l := skipWs input
    match l with
    | [] => none
    | c :: t => if c = rbrace then some (.obj [], t) else parseMembers f l []

def parseMembers : Nat → List Char → List (String × Json) → Option (Json × List Char)
  | 0, _, _ => none
  | f + 1, input, acc =>
    match skipWs input with
    | [] => none
    | c :: t =>
      if c = quoteChar then
        match parseStrGo [] t with
        | none => none
        | some (key, r1) =>
          match skipWs r1 with
          | c2 :: r2 =>
            if c2 = Char.ofNat 58 then
              match parseVal f r2 with
              | none => none
              | some (v, r3) =>
                match skipWs r3 with
                | c3 :: r4 =>
                  if c3 = Char.ofNat 44 then parseMembers f r4 (acc ++ [(key, v)])
                  else if c3 = rbrace then some (.obj (acc ++ [(key, v)]), r4)
                  else none
                | [] => none
            else none
          | [] => none
      else none

def parseArrBody : Nat → List Char → Option (Json × List Char)
  | 0, _ => none
  | f + 1, input =>
    let l := skipWs input
    match l with
    | [] => none
    | c :: t => if c = Char.ofNat 93 then some (.arr [], t) else parseElems f l []

def parseElems : Nat → List Char → List Json → Option (Json × List Char)
  | 0, _, _ => none
  | f + 1, input, acc =>
    match parseVal f input with
    | none => none
    | some (v, r1) =>
      match skipWs r1 with
      | c :: r2 =>
        if c = Char.ofNat 44 then parseElems f r2 (acc ++ [v])
        else if c = Char.ofNat 93 then some (.arr (acc ++ [v]), r2)
        else none
      | [] => none

end

/-- Models `json.loads`: decode one JSON value, rejecting trailing
non-whitespace (Python "Extra data") and the empty input. -/
def jsonLoads (s : String) : Option Json :=
  let l := s.toList
  match parseVal (3 * l.length + 3) l with
  | some (v, rest) => if (skipWs rest).isEmpty then some v else none
  | none => none

/-! ### Conversation messages and the graph state (`AgentState`)

`langchain` message classes collapse to a role tag plus content; only
`HumanMessage` versus non-human matters to the embedded code
(`filter_messages` branches on `isinstance(msg, HumanMessage)`). -/

inductive Role where
  | human : Role
  | ai : Role
deriving DecidableEq, Repr

structure Msg where
  role : Role
  content : String
deriving DecidableEq, Repr

/-- `AgentState` of `stock_agent.py`: `messages` under the `add_messages`
(append) reducer, plus `next_step` and `feedback`.  TypedDict keys may be
absent, hence `Option`; Python reads use `state.get(key, default)`. -/
structure AgentState where
  messages : List Msg
  next_step : Option String
  feedback : Option String
deriving DecidableEq, Repr

/-- A partial state update returned by a node.  A key present in the
returned dict overwrites the channel (`messages` instead appends via the
`add_messages` reducer); an absent key leaves the channel unchanged. -/
structure NodeUpdate where
  messages : List Msg := []
  next_step : Option String := none
  feedback : Option String := none
deriving DecidableEq, Repr

def applyUpdate (s : AgentState) (u : NodeUpdate) : AgentState :=
  { messages := s.messages ++ u.messages
    next_step := match u.next_step with | some v => some v | none => s.next_step
    feedback := match u.feedback with | some v => some v | none => s.feedback }

/-- The langgraph terminal sentinel `END`. -/
def END : String := "__end__"

/-! ### Node functions

Model calls are external collaborators: the analyst model is a function
of the assembled feedback section and the message history, the reviewer
model of the message history; `Except.error` models a raised exception.
Tool callables are entries of the registry, `Json → Except String String`
(argument mapping to `str(result)` or a raised error). -/

abbrev AnalystModel := String → List Msg → Except String String

abbrev ReviewerModel := List Msg → Except String String

abbrev ToolMap := List (String × (Json → Except String String))

/-- The feedback section spliced into the analyst system prompt:
`f"\n\nCRITICAL FEEDBACK FROM REVIEWER:\n{feedback}" if feedback else ""`. -/
def feedbackSection (feedback : String) : String :=
  if feedback = "" then ""
  else "\n\nCRITICAL FEEDBACK FROM REVIEWER:\n" ++ feedback

/-- `analyst_node`: invokes the reasoning model; on success appends the
response and clears `feedback`; on exception appends an error turn (and
returns no `feedback` or `next_step` key). -/
def analyst_node (model : AnalystModel) (s : AgentState) : NodeUpdate :=
  let feedback := s.feedback.getD ""
  match model (feedbackSection feedback) s.messages with
  | .ok response => { messages := [⟨.ai, response⟩], feedback := some "" }
  | .error e => { messages := [⟨.ai, "Analyst encountered error: " ++ e⟩] }

/-- The decision block of `reviewer_node` (lines 196-210): token tests on
the upper-cased review output, the `DASHBOARD:` sentinel test on the raw
content of the last message, then the tool-shaped-content fallback. -/
def reviewerRoute (evalRaw lastContent : String) : NodeUpdate :=
  let ec := pyUpper evalRaw
  if pyIn "VALID_TOOL" ec then { next_step := some "tools" }
  else if pyIn "INVALID_TOOL" ec || pyIn "FEEDBACK" ec || pyIn "RETRY" ec then
    { next_step := some "analyst", feedback := some evalRaw }
  else if pyIn "FINAL" ec || pyIn "DASHBOARD:" lastContent then
    { next_step := some END }
  else if pyIn "CONTINUE" ec then { next_step := some "analyst" }
  else if pyIn (String.mk [lbrace]) lastContent && pyIn "action" lastContent then
    { next_step := some "tools" }
  else { next_step := some END }

/-- `reviewer_node`: reads `messages[-1]` (raising on an empty list),
invokes the review model with no exception handler — a model failure
propagates — and classifies via `reviewerRoute`. -/
def reviewer_node (model : ReviewerModel) (s : AgentState) : Except String NodeUpdate :=
  match s.messages.getLast? with
  | none => .error "IndexError: list index out of range"
  | some last =>
    match model s.messages with
    | .ok evalContent => .ok (reviewerRoute evalContent last.content)
    | .error e => .error e

/-- Stand-ins for `str(e)` of the two exceptions raised inside the `try`
of `tool_node` before a tool runs: a `json.JSONDecodeError` and the
`KeyError` for the missing `"tool"` key (whose `str` is the quoted key).
The exact CPython wording of the former is irrelevant to every claim. -/
def jsonDecodeErrText : String := "Expecting value"

def keyErrText : String := apos ++ "tool" ++ apos

/-- Rendering of a non-string tool name inside the unknown-tool message;
no claim depends on this corner (composites render as a placeholder). -/
def jDisplay : Json → String
  | .null => "None"
  | .bool b => if b then "True" else "False"
  | .num s => s
  | .str s => s
  | .arr _ => "<array>"
  | .obj _ => "<object>"

def pyTake (s : String) (n : Nat) : String := (s.toList.take n).asString

/-- `content[content.find(chr(123)) : content.rfind(chr(125)) + 1]`. -/
def extractAction (content : String) : String :=
  pySlice content (pyFind content lbrace) (pyRFind content rbrace + 1)

/-- The `try` body of `tool_node` on the stripped content of the last
message: extract `content[first-brace : last-brace + 1]`, `json.loads` it,
read `parsed["tool"]` and `parsed.get("args", dict())`, check registry
membership, invoke the tool.  Every raised exception lands in the
`except` branch producing the `SYSTEM ERROR: JSON/Tool failure` turn. -/
def toolTry (tm : ToolMap) (content : String) : NodeUpdate :=
  match jsonLoads (extractAction content) with
  | none =>
    { messages := [⟨.human, "SYSTEM ERROR: JSON/Tool failure: " ++ jsonDecodeErrText⟩]
      next_step := some "analyst" }
  | some parsed =>
    match jGet parsed "tool" with
    | none =>
      { messages := [⟨.human, "SYSTEM ERROR: JSON/Tool failure: " ++ keyErrText⟩]
        next_step := some "analyst" }
    | some toolNameJ =>
      let toolArgs := (jGet parsed "args").getD (.obj [])
      match toolNameJ with
      | .str name =>
        match tm.lookup name with
        | none =>
          { messages := [⟨.human, "SYSTEM ERROR: Tool " ++ apos ++ name ++ apos ++ " unknown."⟩] }
        | some f =>
          match f toolArgs with
          | .ok result =>
            { messages := [⟨.human, "Observation from " ++ name ++ ": " ++ pyTake result 2000⟩]
              next_step := some "analyst" }
          | .error e =>
            { messages := [⟨.human, "SYSTEM ERROR: JSON/Tool failure: " ++ e⟩]
              next_step := some "analyst" }
      | other =>
        { messages :=
            [⟨.human, "SYSTEM ERROR: Tool " ++ apos ++ jDisplay other ++ apos ++ " unknown."⟩] }

/-- `tool_node`: `messages[-1]` is read outside the `try`, so an empty
history raises; everything else is handled by `toolTry`. -/
def tool_node (tm : ToolMap) (s : AgentState) : Except String NodeUpdate :=
  match s.messages.getLast? with
  | none => .error "IndexError: list index out of range"
  | some last => .ok (toolTry tm (pyStrip last.content))

/-! ### Router and graph wiring -/

/-- `route_next` (lines 239-240): `state.get("next_step", END)`. -/
def route_next (s : AgentState) : String := s.next_step.getD END

inductive GNode where
  | analyst : GNode
  | reviewer : GNode
  | tools : GNode
deriving DecidableEq, Repr

/-- The conditional-edge mapping after `reviewer`:
`"tools" -> tools, "analyst" -> analyst, END -> END`.  `reviewer_node`
always writes one of those three values into `next_step`, so the final
branch is exactly the `END` mapping. -/
def routeTarget (s : AgentState) : Option GNode :=
  let r := route_next s
  if r = "tools" then some .tools
  else if r = "analyst" then some .analyst
  else none

inductive RunErr where
  | recursionLimit : RunErr
  | raised (msg : String) : RunErr
deriving DecidableEq, Repr

/-- One graph super-step: run the node, apply its update, pick the next
node per the compiled edges (`analyst → reviewer` and `tools → analyst`
unconditional, `reviewer` conditional via `route_next`). -/
def stepNode (am : AnalystModel) (rm : ReviewerModel) (tm : ToolMap) :
    GNode → AgentState → Except RunErr (AgentState × Option GNode)
  | .analyst, s => .ok (applyUpdate s (analyst_node am s), some .reviewer)
  | .reviewer, s =>
    match reviewer_node rm s with
    | .error e => .error (.raised e)
    | .ok u =>
      let s2 := applyUpdate s u
      .ok (s2, routeTarget s2)
  | .tools, s =>
    match tool_node tm s with
    | .error e => .error (.raised e)
    | .ok u => .ok (applyUpdate s u, some .analyst)

/-- The executor loop of `graph.invoke`: steps until a node routes to
`END`; exhausting the step budget models langgraph raising
`GraphRecursionError` (default limit 25). -/
def runGraph (am : AnalystModel) (rm : ReviewerModel) (tm : ToolMap) :
    Nat → GNode → AgentState → Except RunErr AgentState
  | 0, _, _ => .error .recursionLimit
  | f + 1, n, s =>
    match stepNode am rm tm n s with
    | .error e => .error e
    | .ok (s2, none) => .ok s2
    | .ok (s2, some n2) => runGraph am rm tm f n2 s2

/-! ### `main.py`: visibility filter and final-response selection -/

structure FMsg where
  role : String
  content : String
deriving DecidableEq, Repr

/-- `parsed.get("action") == "tool"`; a non-dict value raises
`AttributeError`, swallowed by the bare `except`, hence `false`. -/
def actionIsToolJ (j : Json) : Bool :=
  match jGet j "action" with
  | some (.str s) => s = "tool"
  | _ => false

/-- One iteration of the `for msg in messages` loop of `filter_messages`:
hides a turn whose whole stripped content is a JSON object with
`action == "tool"`, and human turns with the internal prefixes; keeps
everything else tagged `user`/`assistant` with the original (unstripped)
content. -/
def filterOne (msg : Msg) : Option FMsg :=
  let content := pyStrip msg.content
  let is_tool_call :=
    pyStartsWith content (String.mk [lbrace]) && pyEndsWith content (String.mk [rbrace]) &&
      (match jsonLoads content with
       | some parsed => actionIsToolJ parsed
       | none => false)
  let is_internal_human :=
    (msg.role = Role.human : Bool) &&
      (pyStartsWith content "Observation from" || pyStartsWith content "SYSTEM NOTICE" ||
        pyStartsWith content "SYSTEM ERROR")
  if !is_tool_call && !is_internal_human then
    some ⟨if msg.role = Role.human then "user" else "assistant", msg.content⟩
  else none

/-- `filter_messages` (lines 59-87). -/
def filter_messages (msgs : List Msg) : List FMsg :=
  msgs.filterMap filterOne

def fallbackResponse : String :=
  "I" ++ apos ++ "ve analyzed the data, but I" ++ apos ++
    "m having trouble providing a final answer. Please try a different query."

/-- The `for msg in reversed(filtered)` loop of `analyze_stock` that
selects the last assistant entry, defaulting to the fixed fallback. -/
def pickFinalGo : List FMsg → String
  | [] => fallbackResponse
  | m :: rest => if m.role = "assistant" then m.content else pickFinalGo rest

def pickFinal (l : List FMsg) : String := pickFinalGo l.reverse

structure AnalyzeResponse where
  response : String
  thread_id : String
deriving DecidableEq, Repr

/-- `str(e)` for the errors that reach the `except` of `analyze_stock`;
the recursion-limit wording approximates langgraph, no claim reads it. -/
def errText : RunErr → String
  | .recursionLimit => "Recursion limit of 25 reached without hitting a stop condition."
  | .raised m => m

/-- The response construction of `analyze_stock` (lines 145-171) around
`graph.invoke`: on success, filter the resulting history and pick the
final assistant answer; on any exception, return the apology response.
Nothing is re-raised to the HTTP caller. -/
def respondFrom (tid : String) : Except RunErr AgentState → AnalyzeResponse
  | .ok result => ⟨pickFinal (filter_messages result.messages), tid⟩
  | .error e => ⟨"I" ++ apos ++ "m sorry, an error occurred: " ++ errText e, tid⟩

/-- `analyze_stock` after the thread bookkeeping: append the user turn to
the checkpointed state and drive the graph from the entry point with the
default step budget of 25. -/
def analyze_stock (am : AnalystModel) (rm : ReviewerModel) (tm : ToolMap)
    (thread_id query : String) (prior : AgentState) : AnalyzeResponse :=
  respondFrom thread_id
    (runGraph am rm tm 25 .analyst
      { prior with messages := prior.messages ++ [⟨.human, query⟩] })

/-- The key set of `tool_map` (lines 65-80); the callables themselves are
external HTTP collaborators, out of scope. -/
def tool_map_keys : List String :=
  ["get_stock_price", "get_stock_news", "get_old_news", "search_tool",
   "get_stock_price2", "get_stock_news2", "company_inside_news", "top_gainers",
   "company_overview", "annual_income_statement", "earning_estimate",
   "future_expected_earning", "get_gold_silver_price", "get_stock_intraday_chart"]

/-! ### Concrete collaborators used by witnesses and counterexamples -/

def amThinking : AnalystModel := fun _ _ => .ok "thinking about the request"

def rmContinue : ReviewerModel := fun _ => .ok "CONTINUE"

def amTimeout : AnalystModel := fun _ _ => .error "Request timed out"

def rmDown : ReviewerModel := fun _ => .error "ReviewModelDown"

def rmQuota : ReviewerModel := fun _ => .error "429 quota exceeded"

def feedbackState : AgentState :=
  { messages := [⟨.human, "q"⟩], next_step := none, feedback := some "Use NVDA not AAPL" }

def amDraft : AnalystModel := fun _ _ => .ok "draft answer"

def initialState : AgentState :=
  { messages := [⟨.human, "What is the price of AAPL?"⟩], next_step := none, feedback := none }

def bigErrText : String := (List.replicate 2500 (Char.ofNat 120)).asString

def tmBoom : ToolMap := [("boom", fun _ => .error bigErrText)]

def tmSmallErr : ToolMap := [("boom", fun _ => .error "BOOM")]

def tmPrice : ToolMap := [("get_stock_price", fun _ => .ok "AAPL quote 257.13")]

def boomCall : String := "\x7b\"action\":\"tool\",\"tool\":\"boom\"\x7d"

def boomParsed : Json := .obj [("action", .str "tool"), ("tool", .str "boom")]

def embeddedCallMsg : Msg :=
  ⟨.ai, "Here is the call: \x7b\"action\":\"tool\",\"tool\":\"get_stock_price\",\"args\":\x7b\"symbol\":\"AAPL\"\x7d\x7d thanks"⟩

def embeddedParsed : Json :=
  .obj [("action", .str "tool"), ("tool", .str "get_stock_price"),
        ("args", .obj [("symbol", .str "AAPL")])]

/-! ### Helper lemmas -/

theorem isSub_nil (h : List Char) : isSub [] h = true := by
  induction h with
  | nil => rfl
  | cons c t ih => simp [isSub, ih]

theorem isSub_append_mid (n a b : List Char) : isSub n (a ++ (n ++ b)) = true := by
  induction a with
  | nil =>
    rw [List.nil_append]
    cases n with
    | nil => exact isSub_nil b
    | cons c t =>
      have hpre : (c :: t).isPrefixOf (c :: t ++ b) = true :=
        List.isPrefixOf_iff_prefix.mpr (List.prefix_append (c :: t) b)
      simp [isSub, hpre]
  | cons x a2 ih => simp [isSub, ih]

theorem pyIn_middle (n a b : String) : pyIn n (a ++ n ++ b) = true := by
  show isSub n.toList (a ++ n ++ b).toList = true
  have : (a ++ n ++ b).toList = a.toList ++ (n.toList ++ b.toList) := by
    simp [String.toList, String.data_append]
  rw [this]
  exact isSub_append_mid n.toList a.toList b.toList

theorem pyIn_append_right (n a : String) : pyIn n (a ++ n) = true := by
  have h := pyIn_middle n a ""
  have he : a ++ n ++ "" = a ++ n := by
    apply String.ext
    simp [String.data_append]
  rwa [he] at h

theorem clampIdx_zero (n : Nat) : clampIdx n 0 = 0 := by simp [clampIdx]

theorem pySlice_neg_one_zero (s : String) : pySlice s (-1) 0 = "" := by
  apply String.ext
  simp [pySlice, List.asString, clampIdx_zero]

theorem jsonLoads_empty : jsonLoads "" = none := rfl

/-- If the content has no opening and no closing brace, the extracted
substring is empty and decoding fails, which is mode one of the parse
failures of `tool_node`. -/
theorem extractAction_no_braces (content : String)
    (hl : pyFind content lbrace = -1) (hr : pyRFind content rbrace = -1) :
    jsonLoads (extractAction content) = none := by
  unfold extractAction
  rw [hl, hr]
  have h1 : (-1 : Int) + 1 = 0 := by norm_num
  rw [h1, pySlice_neg_one_zero]
  exact jsonLoads_empty

theorem pickFinalGo_eq_find (l : List FMsg) :
    pickFinalGo l =
      (((l.find? fun m => m.role == "assistant").map FMsg.content).getD fallbackResponse) := by
  induction l with
  | nil => rfl
  | cons m t ih =>
    by_cases h : m.role = "assistant"
    · simp [pickFinalGo, List.find?, h]
    · have hb : (m.role == "assistant") = false := by
        simp [h]
      simp [pickFinalGo, List.find?, hb, h, ih]

/-! ### Claim C2 -/

/-- Claim C2 (confirmed): for every malformed action text — no braces,
undecodable JSON between the first opening and last closing brace, or a
missing tool-name field — parsing fails non-fatally: the Tool Execution
step appends a corrective `SYSTEM ERROR: JSON/Tool failure` notice turn
and sets `next_step` to the Reasoning node, to which the unconditional
`tools -> analyst` edge also routes; the result does not depend on the
tool registry (no tool is executed) and the run is never terminated. -/
theorem C2_malformed_action_recovers (tm : ToolMap) (content : String)
    (h : (pyFind content lbrace = -1 ∧ pyRFind content rbrace = -1)
        ∨ jsonLoads (extractAction content) = none
        ∨ ∃ j, jsonLoads (extractAction content) = some j ∧ jGet j "tool" = none) :
    (∃ e, toolTry tm content =
        { messages := [⟨Role.human, "SYSTEM ERROR: JSON/Tool failure: " ++ e⟩]
          next_step := some "analyst", feedback := none })
    ∧ (∀ tm2 : ToolMap, toolTry tm2 content = toolTry tm content)
    ∧ (∀ (pre : List Msg) (m : Msg) (ns fb : Option String)
        (am : AnalystModel) (rm : ReviewerModel),
        pyStrip m.content = content →
        stepNode am rm tm GNode.tools ⟨pre ++ [m], ns, fb⟩ =
          .ok (applyUpdate ⟨pre ++ [m], ns, fb⟩ (toolTry tm content), some GNode.analyst)) := by
  have hcases : jsonLoads (extractAction content) = none
      ∨ ∃ j, jsonLoads (extractAction content) = some j ∧ jGet j "tool" = none := by
    rcases h with ⟨hl, hr⟩ | h2 | h3
    · exact Or.inl (extractAction_no_braces content hl hr)
    · exact Or.inl h2
    · exact Or.inr h3
  refine ⟨?_, ?_, ?_⟩
  · rcases hcases with hnone | ⟨j, hj, ht⟩
    · exact ⟨jsonDecodeErrText, by simp [toolTry, hnone]⟩
    · exact ⟨keyErrText, by simp [toolTry, hj, ht]⟩
  · intro tm2
    rcases hcases with hnone | ⟨j, hj, ht⟩
    · simp [toolTry, hnone]
    · simp [toolTry, hj, ht]
  · intro pre m ns fb am rm hstrip
    simp [stepNode, tool_node, List.getLast?_concat, hstrip]

/-- Witness for C2 at the concrete input "model said no json" (which
contains no brace) and the empty registry. -/
theorem C2_malformed_action_recovers_witness :
    (∃ e, toolTry [] "model said no json" =
        { messages := [⟨Role.human, "SYSTEM ERROR: JSON/Tool failure: " ++ e⟩]
          next_step := some "analyst", feedback := none })
    ∧ (∀ tm2 : ToolMap, toolTry tm2 "model said no json" = toolTry [] "model said no json")
    ∧ (∀ (pre : List Msg) (m : Msg) (ns fb : Option String)
        (am : AnalystModel) (rm : ReviewerModel),
        pyStrip m.content = "model said no json" →
        stepNode am rm [] GNode.tools ⟨pre ++ [m], ns, fb⟩ =
          .ok (applyUpdate ⟨pre ++ [m], ns, fb⟩ (toolTry [] "model said no json"),
            some GNode.analyst)) :=
  C2_malformed_action_recovers [] "model said no json" (Or.inl ⟨rfl, rfl⟩)

/-! ### Claim C3 -/

/-- Claim C3 (confirmed): for every ActionDescriptor whose tool name is
absent from the registry, the Tool Execution step appends a turn whose
text contains the literal tool name, sets no routing key, and the
unconditional `tools -> analyst` edge routes control back to the
Reasoning step; the run is never terminated by an unknown tool name. -/
theorem C3_unknown_tool_recovers (tm : ToolMap) (content name : String) (j : Json)
    (hparse : jsonLoads (extractAction content) = some j)
    (htool : jGet j "tool" = some (Json.str name))
    (habsent : tm.lookup name = none) :
    toolTry tm content =
      { messages := [⟨Role.human, "SYSTEM ERROR: Tool " ++ apos ++ name ++ apos ++ " unknown."⟩]
        next_step := none, feedback := none }
    ∧ pyIn name ("SYSTEM ERROR: Tool " ++ apos ++ name ++ apos ++ " unknown.") = true
    ∧ (∀ (pre : List Msg) (m : Msg) (ns fb : Option String)
        (am : AnalystModel) (rm : ReviewerModel),
        pyStrip m.content = content →
        stepNode am rm tm GNode.tools ⟨pre ++ [m], ns, fb⟩ =
          .ok (applyUpdate ⟨pre ++ [m], ns, fb⟩ (toolTry tm content), some GNode.analyst)) := by
  refine ⟨by simp [toolTry, hparse, htool, habsent], ?_, ?_⟩
  · have hassoc :
        ("SYSTEM ERROR: Tool " ++ apos) ++ name ++ (apos ++ " unknown.") =
          "SYSTEM ERROR: Tool " ++ apos ++ name ++ apos ++ " unknown." := by
      apply String.ext
      simp [String.data_append]
    rw [← hassoc]
    exact pyIn_middle name ("SYSTEM ERROR: Tool " ++ apos) (apos ++ " unknown.")
  · intro pre m ns fb am rm hstrip
    simp [stepNode, tool_node, List.getLast?_concat, hstrip]

/-- Witness for C3: a well-formed action naming the unregistered tool
"magic", against a registry holding only "get_stock_price". -/
theorem C3_unknown_tool_recovers_witness :
    toolTry tmPrice "\x7b\"action\":\"tool\",\"tool\":\"magic\"\x7d" =
      { messages :=
          [⟨Role.human, "SYSTEM ERROR: Tool " ++ apos ++ "magic" ++ apos ++ " unknown."⟩]
        next_step := none, feedback := none }
    ∧ pyIn "magic" ("SYSTEM ERROR: Tool " ++ apos ++ "magic" ++ apos ++ " unknown.") = true
    ∧ (∀ (pre : List Msg) (m : Msg) (ns fb : Option String)
        (am : AnalystModel) (rm : ReviewerModel),
        pyStrip m.content = "\x7b\"action\":\"tool\",\"tool\":\"magic\"\x7d" →
        stepNode am rm tmPrice GNode.tools ⟨pre ++ [m], ns, fb⟩ =
          .ok (applyUpdate ⟨pre ++ [m], ns, fb⟩
            (toolTry tmPrice "\x7b\"action\":\"tool\",\"tool\":\"magic\"\x7d"),
            some GNode.analyst)) :=
  C3_unknown_tool_recovers tmPrice "\x7b\"action\":\"tool\",\"tool\":\"magic\"\x7d" "magic"
    (Json.obj [("action", Json.str "tool"), ("tool", Json.str "magic")]) rfl rfl rfl

/-! ### Claim C4 -/

/-- Claim C4, counterexample to "truncated error text": a tool raising a
2500-character error message yields a failure turn carrying the entire
message untruncated (the 2000-character cut of line 231 applies only to
successful results). -/
theorem C4_counterexample :
    toolTry tmBoom boomCall =
      { messages := [⟨Role.human, "SYSTEM ERROR: JSON/Tool failure: " ++ bigErrText⟩]
        next_step := some "analyst", feedback := none }
    ∧ 2000 < bigErrText.length := by
  constructor
  · rfl
  · have h : bigErrText.length = 2500 := by
      show (List.replicate 2500 (Char.ofNat 120)).length = 2500
      exact List.length_replicate 2500 _
    omega

/-- Claim C4 (amended): for every tool callable that raises, the Tool
Execution step catches the exception and appends a turn carrying the
full, untruncated error text, sets `next_step` to the Reasoning node,
and the step itself never fails, so the exception never propagates. -/
theorem C4_tool_error_recovers (tm : ToolMap) (content name e : String) (j : Json)
    (f : Json → Except String String)
    (hparse : jsonLoads (extractAction content) = some j)
    (htool : jGet j "tool" = some (Json.str name))
    (hlook : tm.lookup name = some f)
    (herr : f ((jGet j "args").getD (Json.obj [])) = .error e) :
    toolTry tm content =
      { messages := [⟨Role.human, "SYSTEM ERROR: JSON/Tool failure: " ++ e⟩]
        next_step := some "analyst", feedback := none }
    ∧ (∀ (pre : List Msg) (m : Msg) (ns fb : Option String)
        (am : AnalystModel) (rm : ReviewerModel),
        pyStrip m.content = content →
        stepNode am rm tm GNode.tools ⟨pre ++ [m], ns, fb⟩ =
          .ok (applyUpdate ⟨pre ++ [m], ns, fb⟩ (toolTry tm content), some GNode.analyst)) := by
  refine ⟨by simp [toolTry, hparse, htool, hlook, herr], ?_⟩
  intro pre m ns fb am rm hstrip
  simp [stepNode, tool_node, List.getLast?_concat, hstrip]

/-- Witness for the amended C4 at a registry whose "boom" callable raises
with message "BOOM". -/
theorem C4_tool_error_recovers_witness :
    toolTry tmSmallErr boomCall =
      { messages := [⟨Role.human, "SYSTEM ERROR: JSON/Tool failure: " ++ "BOOM"⟩]
        next_step := some "analyst", feedback := none }
    ∧ (∀ (pre : List Msg) (m : Msg) (ns fb : Option String)
        (am : AnalystModel) (rm : ReviewerModel),
        pyStrip m.content = boomCall →
        stepNode am rm tmSmallErr GNode.tools ⟨pre ++ [m], ns, fb⟩ =
          .ok (applyUpdate ⟨pre ++ [m], ns, fb⟩ (toolTry tmSmallErr boomCall),
            some GNode.analyst)) :=
  C4_tool_error_recovers tmSmallErr boomCall "boom" "BOOM" boomParsed
    (fun _ => .error "BOOM") rfl rfl rfl rfl

/-! ### Claim C5 -/

/-- Claim C5, counterexample: on a reasoning-model failure the Reasoning
step appends the assistant error turn but does not signal terminal
routing — the next node is the Review step, not Terminal; and a single
model outage on the review side crashes out of the workflow loop instead
of ending the run gracefully. -/
theorem C5_counterexample :
    stepNode amTimeout rmContinue [] GNode.analyst initialState =
      .ok ({ messages :=
              [⟨Role.human, "What is the price of AAPL?"⟩,
               ⟨Role.ai, "Analyst encountered error: Request timed out"⟩]
             next_step := none, feedback := none }, some GNode.reviewer)
    ∧ runGraph amDraft rmDown [] 25 GNode.analyst initialState =
        .error (RunErr.raised "ReviewModelDown") := by
  constructor <;> rfl

/-- Claim C5 (amended): on a reasoning-model failure the Reasoning step
absorbs the exception into an assistant turn with a human-readable error
message, but routes unconditionally to the Review step rather than
signalling terminal; the Review step itself has no handler, so a
review-model failure propagates out of the workflow. -/
theorem C5_model_error_soft_fail (am : AnalystModel) (s : AgentState) (e : String)
    (h : am (feedbackSection (s.feedback.getD "")) s.messages = .error e) :
    analyst_node am s =
      { messages := [⟨Role.ai, "Analyst encountered error: " ++ e⟩]
        next_step := none, feedback := none }
    ∧ (∀ (rm : ReviewerModel) (tm : ToolMap),
        stepNode am rm tm GNode.analyst s =
          .ok (applyUpdate s (analyst_node am s), some GNode.reviewer))
    ∧ (∀ (rm : ReviewerModel) (e2 : String) (s2 : AgentState) (m : Msg),
        s2.messages.getLast? = some m → rm s2.messages = .error e2 →
        reviewer_node rm s2 = .error e2) := by
  refine ⟨by simp [analyst_node, h], fun rm tm => rfl, ?_⟩
  intro rm e2 s2 m hlast hrm
  simp [reviewer_node, hlast, hrm]

/-- Witness for the amended C5 at a timing-out analyst model. -/
theorem C5_model_error_soft_fail_witness :
    analyst_node amTimeout initialState =
      { messages := [⟨Role.ai, "Analyst encountered error: " ++ "Request timed out"⟩]
        next_step := none, feedback := none }
    ∧ (∀ (rm : ReviewerModel) (tm : ToolMap),
        stepNode amTimeout rm tm GNode.analyst initialState =
          .ok (applyUpdate initialState (analyst_node amTimeout initialState),
            some GNode.reviewer))
    ∧ (∀ (rm : ReviewerModel) (e2 : String) (s2 : AgentState) (m : Msg),
        s2.messages.getLast? = some m → rm s2.messages = .error e2 →
        reviewer_node rm s2 = .error e2) :=
  C5_model_error_soft_fail amTimeout initialState "Request timed out" rfl

/-! ### Claim C6 -/

/-- Claim C6, counterexample: the review output "CONTINUE" carries an
explicit classification whose route is the Reasoning node (second
equation), yet when the raw content of the latest assistant turn
contains the sentinel, sentinel detection decides the route to Terminal
in spite of that explicit classification (first equation). -/
theorem C6_counterexample :
    reviewerRoute "CONTINUE" "DASHBOARD:AAPL" =
      { messages := [], next_step := some END, feedback := none }
    ∧ reviewerRoute "CONTINUE" "a plain draft" =
      { messages := [], next_step := some "analyst", feedback := none } := by
  constructor <;> rfl

/-- Claim C6 (amended): the explicit VALID_TOOL, INVALID_TOOL, FEEDBACK
and RETRY classifications take priority over sentinel detection, but
sentinel detection on the raw content of the latest assistant turn takes
priority over the explicit CONTINUE classification: whenever none of the
four higher-priority tokens applies, a sentinel in the raw content
routes to Terminal regardless of the rest of the review output. -/
theorem C6_classification_priority (evalRaw lastContent : String) :
    (pyIn "VALID_TOOL" (pyUpper evalRaw) = true →
      reviewerRoute evalRaw lastContent =
        { messages := [], next_step := some "tools", feedback := none })
    ∧ ((pyIn "INVALID_TOOL" (pyUpper evalRaw) = true ∨ pyIn "FEEDBACK" (pyUpper evalRaw) = true
          ∨ pyIn "RETRY" (pyUpper evalRaw) = true) →
        pyIn "VALID_TOOL" (pyUpper evalRaw) = false →
        reviewerRoute evalRaw lastContent =
          { messages := [], next_step := some "analyst", feedback := some evalRaw })
    ∧ (pyIn "VALID_TOOL" (pyUpper evalRaw) = false →
        pyIn "INVALID_TOOL" (pyUpper evalRaw) = false →
        pyIn "FEEDBACK" (pyUpper evalRaw) = false →
        pyIn "RETRY" (pyUpper evalRaw) = false →
        pyIn "DASHBOARD:" lastContent = true →
        reviewerRoute evalRaw lastContent =
          { messages := [], next_step := some END, feedback := none }) := by
  refine ⟨?_, ?_, ?_⟩
  · intro h1
    simp [reviewerRoute, h1]
  · intro h2 h1
    rcases h2 with h | h | h <;> simp [reviewerRoute, h1, h]
  · intro h1 h2 h3 h4 h5
    simp [reviewerRoute, h1, h2, h3, h4, h5]

/-- Witness for the amended C6: with no higher-priority token, the
sentinel routes to Terminal even though the review output says CONTINUE. -/
theorem C6_classification_priority_witness :
    reviewerRoute "CONTINUE" "see DASHBOARD:TSLA" =
      { messages := [], next_step := some END, feedback := none } :=
  (C6_classification_priority "CONTINUE" "see DASHBOARD:TSLA").2.2
    (by decide) (by decide) (by decide) (by decide) (by decide)

/-! ### Claim C7 -/

/-- Claim C7, counterexample: a review-model failure — not a persistence
failure — escapes the workflow loop, and every failure escaping the loop
(persistence failures included) is caught by the request handler and
turned into an apology response value rather than propagating to the
caller of run. -/
theorem C7_counterexample :
    runGraph amDraft rmQuota [] 25 GNode.analyst initialState =
      .error (RunErr.raised "429 quota exceeded")
    ∧ respondFrom "t-7" (.error (RunErr.raised "429 quota exceeded")) =
      ⟨"I" ++ apos ++ "m sorry, an error occurred: " ++ "429 quota exceeded", "t-7"⟩
    ∧ respondFrom "t-7" (.error (RunErr.raised "PersistenceError: checkpoint save failed")) =
      ⟨"I" ++ apos ++ "m sorry, an error occurred: " ++
        "PersistenceError: checkpoint save failed", "t-7"⟩ := by
  refine ⟨rfl, rfl, rfl⟩

/-- Claim C7 (amended): analyst-model, tool and parse failures are
absorbed into conversation turns, but review-model failures escape the
loop alongside persistence failures; whatever escapes is caught by the
request handler and converted into an apology response carrying the
error text — nothing propagates to the caller of run. -/
theorem C7_escape_policy (rm : ReviewerModel) (e tid : String)
    (hrm : ∀ msgs, rm msgs = .error e) :
    (∀ (am : AnalystModel) (tm : ToolMap) (s : AgentState) (m : Msg),
        s.messages.getLast? = some m →
        stepNode am rm tm GNode.reviewer s = .error (RunErr.raised e))
    ∧ (∀ err : RunErr, respondFrom tid (.error err) =
        ⟨"I" ++ apos ++ "m sorry, an error occurred: " ++ errText err, tid⟩)
    ∧ (∀ (am : AnalystModel) (tm : ToolMap) (s : AgentState) (e2 : String),
        am (feedbackSection (s.feedback.getD "")) s.messages = .error e2 →
        stepNode am rm tm GNode.analyst s =
          .ok (applyUpdate s
            { messages := [⟨Role.ai, "Analyst encountered error: " ++ e2⟩]
              next_step := none, feedback := none }, some GNode.reviewer)) := by
  refine ⟨?_, fun err => rfl, ?_⟩
  · intro am tm s m hlast
    simp [stepNode, reviewer_node, hlast, hrm]
  · intro am tm s e2 h2
    simp [stepNode, analyst_node, h2]

/-- Witness for the amended C7 at a failing review model. -/
theorem C7_escape_policy_witness :
    (∀ (am : AnalystModel) (tm : ToolMap) (s : AgentState) (m : Msg),
        s.messages.getLast? = some m →
        stepNode am rmDown tm GNode.reviewer s = .error (RunErr.raised "ReviewModelDown"))
    ∧ (∀ err : RunErr, respondFrom "t-17" (.error err) =
        ⟨"I" ++ apos ++ "m sorry, an error occurred: " ++ errText err, "t-17"⟩)
    ∧ (∀ (am : AnalystModel) (tm : ToolMap) (s : AgentState) (e2 : String),
        am (feedbackSection (s.feedback.getD "")) s.messages = .error e2 →
        stepNode am rmDown tm GNode.analyst s =
          .ok (applyUpdate s
            { messages := [⟨Role.ai, "Analyst encountered error: " ++ e2⟩]
              next_step := none, feedback := none }, some GNode.reviewer)) :=
  C7_escape_policy rmDown "ReviewModelDown" "t-17" (fun _ => rfl)

/-! ### Claim C8 -/

/-- Claim C8, counterexample: a Reasoning execution in a state with
non-empty feedback includes the feedback in the instruction, yet when
the model call fails the feedback field is left unchanged instead of
being cleared, so the same feedback is re-sent on the next iteration. -/
theorem C8_counterexample :
    pyIn "Use NVDA not AAPL" (feedbackSection "Use NVDA not AAPL") = true
    ∧ (applyUpdate feedbackState (analyst_node amTimeout feedbackState)).feedback =
        some "Use NVDA not AAPL" := by
  constructor
  · decide
  · rfl

/-- Claim C8 (amended): non-empty feedback is always included in the
assembled instruction, but it is cleared in the same step only when the
model call succeeds; on a model-call failure the feedback field is
retained unchanged, so it is re-sent on the next Reasoning execution. -/
theorem C8_feedback_clearing (am : AnalystModel) (s : AgentState) (fb : String)
    (hfb : s.feedback = some fb) (hne : fb ≠ "") :
    pyIn fb (feedbackSection fb) = true
    ∧ (∀ c, am (feedbackSection fb) s.messages = .ok c →
        (applyUpdate s (analyst_node am s)).feedback = some "")
    ∧ (∀ e, am (feedbackSection fb) s.messages = .error e →
        (applyUpdate s (analyst_node am s)).feedback = some fb) := by
  have hsec : feedbackSection fb = "\n\nCRITICAL FEEDBACK FROM REVIEWER:\n" ++ fb := by
    simp [feedbackSection, hne]
  refine ⟨?_, ?_, ?_⟩
  · rw [hsec]
    exact pyIn_append_right fb _
  · intro c hc
    simp [analyst_node, applyUpdate, hfb, hc]
  · intro e he
    simp [analyst_node, applyUpdate, hfb, he]

/-- Witness for the amended C8 at the concrete feedback-bearing state. -/
theorem C8_feedback_clearing_witness :
    pyIn "Use NVDA not AAPL" (feedbackSection "Use NVDA not AAPL") = true
    ∧ (∀ c, amTimeout (feedbackSection "Use NVDA not AAPL") feedbackState.messages = .ok c →
        (applyUpdate feedbackState (analyst_node amTimeout feedbackState)).feedback = some "")
    ∧ (∀ e, amTimeout (feedbackSection "Use NVDA not AAPL") feedbackState.messages = .error e →
        (applyUpdate feedbackState (analyst_node amTimeout feedbackState)).feedback =
          some "Use NVDA not AAPL") :=
  C8_feedback_clearing amTimeout feedbackState "Use NVDA not AAPL" rfl (by decide)

/-! ### Claim C1 -/

/-- Claim C1, counterexample: the state carries no iteration counter and
the Router never forces Terminal — with a reviewer that always answers
CONTINUE, a run performs twelve full reasoning cycles (far past the
claimed maximum of five) without ever reaching Terminal and then crashes
with the executor recursion error; no fixed step-limit assistant turn
exists anywhere in the code. -/
theorem C1_counterexample :
    runGraph amThinking rmContinue [] 25 GNode.analyst initialState =
      .error RunErr.recursionLimit := by
  rfl

/-- Claim C1 (amended): the loop has no iteration counter and no
configured maximum — the Router returns the next-step channel
unconditionally.  For every step budget, a run whose review model always
answers with CONTINUE (and none of the other classification tokens) and
whose analyst output never contains the sentinel never reaches Terminal:
it always exhausts the budget and fails with the recursion error, which
escapes the loop instead of producing a fixed step-limit turn. -/
theorem C1_no_iteration_cap (am : AnalystModel) (rm : ReviewerModel) (tm : ToolMap)
    (ham : ∀ fb msgs, ∃ c, am fb msgs = .ok c ∧ pyIn "DASHBOARD:" c = false)
    (hrm : ∀ msgs, ∃ c, rm msgs = .ok c
        ∧ pyIn "VALID_TOOL" (pyUpper c) = false
        ∧ pyIn "INVALID_TOOL" (pyUpper c) = false
        ∧ pyIn "FEEDBACK" (pyUpper c) = false
        ∧ pyIn "RETRY" (pyUpper c) = false
        ∧ pyIn "FINAL" (pyUpper c) = false
        ∧ pyIn "CONTINUE" (pyUpper c) = true) :
    ∀ (fuel : Nat) (s : AgentState),
      runGraph am rm tm fuel GNode.analyst s = .error RunErr.recursionLimit := by
  suffices h : ∀ fuel : Nat,
      (∀ s, runGraph am rm tm fuel GNode.analyst s = .error RunErr.recursionLimit)
      ∧ (∀ (s : AgentState) (pre : List Msg) (c : String),
          s.messages = pre ++ [⟨Role.ai, c⟩] → pyIn "DASHBOARD:" c = false →
          runGraph am rm tm fuel GNode.reviewer s = .error RunErr.recursionLimit) by
    intro fuel s
    exact (h fuel).1 s
  intro fuel
  induction fuel with
  | zero => exact ⟨fun _ => rfl, fun _ _ _ _ _ => rfl⟩
  | succ f ih =>
    constructor
    · intro s
      obtain ⟨c, hc, hdash⟩ := ham (feedbackSection (s.feedback.getD "")) s.messages
      have hstep : runGraph am rm tm (f + 1) GNode.analyst s =
          runGraph am rm tm f GNode.reviewer (applyUpdate s (analyst_node am s)) := by
        simp [runGraph, stepNode]
      rw [hstep]
      refine ih.2 _ s.messages c ?_ hdash
      simp [applyUpdate, analyst_node, hc]
    · intro s pre c hmsgs hdash
      obtain ⟨ec, hec, h1, h2, h3, h4, h5, h6⟩ := hrm s.messages
      have hlast : s.messages.getLast? = some ⟨Role.ai, c⟩ := by
        rw [hmsgs]
        exact List.getLast?_concat _
      have hroute : reviewerRoute ec c =
          { messages := [], next_step := some "analyst", feedback := none } := by
        simp [reviewerRoute, h1, h2, h3, h4, h5, h6, hdash]
      have hstep : runGraph am rm tm (f + 1) GNode.reviewer s =
          runGraph am rm tm f GNode.analyst (applyUpdate s (reviewerRoute ec c)) := by
        simp [runGraph, stepNode, reviewer_node, hlast, hec, hroute, routeTarget,
          route_next, applyUpdate]
      rw [hstep]
      exact ih.1 _

/-- Witness for the amended C1 at the concrete always-continue models
and a budget of seven steps. -/
theorem C1_no_iteration_cap_witness :
    runGraph amThinking rmContinue [] 7 GNode.analyst initialState =
      .error RunErr.recursionLimit :=
  C1_no_iteration_cap amThinking rmContinue []
    (fun _ _ => ⟨"thinking about the request", rfl, by decide⟩)
    (fun _ => ⟨"CONTINUE", rfl, by decide, by decide, by decide, by decide, by decide,
      by decide⟩)
    7 initialState

/-! ### Claim C9 -/

/-- Claim C9 (confirmed): for every completed run the value returned to
the caller is the content of the last assistant-role entry of the
visibility-filtered turn history together with the session identifier,
and the fixed fallback message when the filtered history has no
assistant-role entry. -/
theorem C9_final_response_selection (tid : String) (result : AgentState) :
    respondFrom tid (.ok result) =
      ⟨((((filter_messages result.messages).reverse.find? fun m => m.role == "assistant").map
          FMsg.content).getD fallbackResponse), tid⟩ := by
  show AnalyzeResponse.mk (pickFinal (filter_messages result.messages)) tid = _
  rw [pickFinal, pickFinalGo_eq_find]

/-! ### Claim C10 -/

/-- Claim C10 (confirmed): a message whose stripped content embeds a
tool-call JSON object inside surrounding text (so it does not both start
with an opening brace and end with a closing brace) survives the
visibility filter in every history, even though the Tool Execution step
would extract that same object by first-to-last-brace slicing and
execute the named registered tool on it. -/
theorem C10_embedded_tool_call_visible (m : Msg) (j : Json) (name res : String)
    (f : Json → Except String String) (tm : ToolMap)
    (hrole : m.role = Role.ai)
    (hnotwhole : pyStartsWith (pyStrip m.content) (String.mk [lbrace]) = false
        ∨ pyEndsWith (pyStrip m.content) (String.mk [rbrace]) = false)
    (hparse : jsonLoads (extractAction (pyStrip m.content)) = some j)
    (_haction : jGet j "action" = some (Json.str "tool"))
    (htool : jGet j "tool" = some (Json.str name))
    (hreg : tm.lookup name = some f)
    (hrun : f ((jGet j "args").getD (Json.obj [])) = .ok res) :
    (∀ pre post : List Msg,
      filter_messages (pre ++ m :: post) =
        filter_messages pre ++ ⟨"assistant", m.content⟩ :: filter_messages post)
    ∧ toolTry tm (pyStrip m.content) =
        { messages := [⟨Role.human, "Observation from " ++ name ++ ": " ++ pyTake res 2000⟩]
          next_step := some "analyst", feedback := none } := by
  constructor
  · have h1 : filterOne m = some ⟨"assistant", m.content⟩ := by
      rcases hnotwhole with hs | he
      · simp [filterOne, hrole, hs]
      · simp [filterOne, hrole, he]
    intro pre post
    simp [filter_messages, List.filterMap_append, List.filterMap_cons, h1]
  · simp [toolTry, hparse, htool, hreg, hrun]

/-- Witness for C10: an assistant turn embedding a price tool call in
prose remains visible while the Tool Execution step would run the tool. -/
theorem C10_embedded_tool_call_visible_witness :
    (∀ pre post : List Msg,
      filter_messages (pre ++ embeddedCallMsg :: post) =
        filter_messages pre ++ ⟨"assistant", embeddedCallMsg.content⟩ :: filter_messages post)
    ∧ toolTry tmPrice (pyStrip embeddedCallMsg.content) =
        { messages :=
            [⟨Role.human,
              "Observation from " ++ "get_stock_price" ++ ": " ++
                pyTake "AAPL quote 257.13" 2000⟩]
          next_step := some "analyst", feedback := none } :=
  C10_embedded_tool_call_visible embeddedCallMsg embeddedParsed "get_stock_price"
    "AAPL quote 257.13" (fun _ => .ok "AAPL quote 257.13") tmPrice
    rfl (Or.inl (by decide)) rfl rfl rfl rfl rfl

end QuantPilot
